import Mathlib

/-!
A shallow embedding of `p1-lib.c`, the core of a smart-electricity-meter
readout library (P1 / DSMR framing, IEC 62056-21 "D0" handshake, CRC-16
verification), together with theorems settling the frozen claims about it.

Modelling conventions:
* Machine bytes are `Nat` (the C code reads into `uint8_t`, so all buffer
  comparisons are unsigned; concrete inputs use values < 256).
* The input byte stream is a `List Nat`; a successful `read(fd, &b, 1)`
  consumes the head and returns 1, an exhausted stream returns 0 (end of
  stream / timeout).  `write` always succeeds and is recorded in an output
  trace; `tcdrain`, `usleep` and `logmsg` have no observable effect here.
* A buffer is a total function `Nat → Nat` (contents) and, for the framer,
  an explicit list of written indices, so out-of-bounds stores are visible.
* Terminal speed: the glibc `termios` of this program keeps one CBAUD field
  (the code never sets a split input speed), so the port configuration is a
  single `speed : Nat` field; `cfgetispeed`/`cfsetispeed`/`cfsetspeed` all
  read/write it.  Baud constants are modelled by their numeric rates.
* Sessions produced by `telegram_parser_open`/`_open_d0` always have an
  allocated buffer, an open descriptor and `bufsize ≥ 1` (a zero `bufsize`
  argument is replaced by the default `PARSER_BUFLEN` before allocation),
  so the `NULL`-pointer guards of the C API are outside the model and the
  `size_t` expressions `bufsize - 1` never wrap.
* The OBIS grammar (Ragel parser) is an external collaborator; it is
  modelled as an oracle mapping the fed bytes to the fields it writes back
  (`crc16`, the finish status, and the parse-error counter).
-/

/-- Store `v` at index `i` of a buffer modelled as a total function. -/
def wr (f : Nat → Nat) (i v : Nat) : Nat → Nat :=
  fun j => if j = i then v else f j

/-- Store the bytes of `l` consecutively starting at index `i`. -/
def writeSeq (f : Nat → Nat) (i : Nat) : List Nat → (Nat → Nat)
  | [] => f
  | b :: l => writeSeq (wr f i b) (i + 1) l

theorem wr_same (f : Nat → Nat) (i v : Nat) : wr f i v i = v := by
  simp [wr]

theorem wr_other (f : Nat → Nat) (i v j : Nat) (h : j ≠ i) : wr f i v j = f j := by
  simp [wr, h]

theorem writeSeq_get (l : List Nat) : ∀ (f : Nat → Nat) (i j : Nat),
    writeSeq f i l j = if i ≤ j ∧ j < i + l.length then l.getD (j - i) 0 else f j := by
  induction l with
  | nil =>
    intro f i j
    rw [writeSeq, if_neg (by simp only [List.length_nil, Nat.add_zero]; omega)]
  | cons b l ih =>
    intro f i j
    rw [writeSeq, ih]
    by_cases hj : j = i
    · subst hj
      rw [if_neg (by omega), wr_same, if_pos (by simp only [List.length_cons]; omega)]
      simp
    · rw [wr_other f i b j hj]
      by_cases hin : i + 1 ≤ j ∧ j < i + 1 + l.length
      · rw [if_pos hin, if_pos (by simp only [List.length_cons]; omega)]
        have hji : j - i = (j - (i + 1)) + 1 := by omega
        rw [hji, List.getD_cons_succ]
      · rw [if_neg hin, if_neg (by simp only [List.length_cons]; omega)]

/-- Modelled from the spec: the CRC-16 primitive of `crc16.h` (not under
`src/`): the CRC-16/IBM ("ARC") checksum with reflected polynomial
`0xA001`, initial value `0x0000` and no final XOR, one shift round. -/
def crc16Round (crc : Nat) : Nat :=
  if crc % 2 = 1 then (crc / 2) ^^^ 0xA001 else crc / 2

/-- Modelled from the spec: absorb one byte into the CRC-16/ARC state. -/
def crc16Byte (crc b : Nat) : Nat :=
  crc16Round^[8] (crc ^^^ (b % 256))

/-- Modelled from the spec: CRC-16/ARC over a byte sequence. -/
def crc16 (data : List Nat) : Nat :=
  data.foldl crc16Byte 0

set_option maxRecDepth 8192 in
/-- The spec's reference test vector for the CRC-16 collaborator:
the checksum of the ASCII bytes of "123456789" is `0xBB3D`. -/
theorem crc16_reference_vector :
    crc16 [49, 50, 51, 52, 53, 54, 55, 56, 57] = 0xBB3D := by decide

/-- Embedding of `crc_telegram` (p1-lib.c, lines 20-41): CRC verification of
a buffered telegram, here given as the list of its `length` bytes. -/
def crc_telegram (data : List Nat) : Nat :=
  if data.getD (data.length - 3) 0 = 33 then
    -- Old-style telegrams end with "!\r\n" and carry no CRC: "not applicable"
    0
  else if data.getD (data.length - 7) 0 = 33 then
    -- CRC16 from the start of the telegram up to and including the '!'
    crc16 (data.take (data.length - 6))
  else
    -- Invalid telegram
    0

/-- Result of `read_telegram`: the returned length (0 on failure), the final
buffer, the list of buffer indices that were stored to, the final value of
the internal failed-byte counter, and the unconsumed rest of the stream. -/
structure RTRes where
  result : Nat
  buf : Nat → Nat
  writes : List Nat
  failed : Nat
  rest : List Nat

/-- Outcome of the `'!'`-trailer disambiguation of `read_telegram`:
`result = some len` means a complete telegram of length `len` was
recognised; `result = none` means the candidate is invalid and scanning
restarts.  `ended` records that the trailer reads already hit the end of
the stream (so the next loop read returns 0 and the loop exits). -/
structure BangRes where
  result : Option Nat
  ended : Bool
  buf : Nat → Nat
  ws : List Nat
  failed : Nat
  rest : List Nat

/-- The four CRC reads of the trailer disambiguation (p1-lib.c, lines
77-85), entered with `offset` already advanced past the two first trailer
bytes (`o2`).  `len == 4 && buf[offset + 2] == 0x0d` yields a new-style
telegram of length `offset + 4`; otherwise the candidate is invalid and
`failed += offset + len`. -/
def rtBang4 (o2 failed : Nat) (buf2 : Nat → Nat) (ws2 : List Nat) : List Nat → BangRes
  | d0 :: d1 :: d2 :: d3 :: input3 =>
    let buf3 := wr (wr (wr (wr buf2 o2 d0) (o2 + 1) d1) (o2 + 2) d2) (o2 + 3) d3
    let ws3 := (o2 + 3) :: (o2 + 2) :: (o2 + 1) :: o2 :: ws2
    if d2 = 13 then
      -- new-style telegram with CRC
      ⟨some (o2 + 4), false, buf3, ws3, failed, input3⟩
    else
      -- invalid telegram, restart scanning
      ⟨none, false, buf3, ws3, failed + o2 + 4, input3⟩
  | short =>
      -- fewer than 4 CRC bytes: failed += offset + len and the stream ends
      ⟨none, true, writeSeq buf2 o2 short,
        ((List.range short.length).map fun i => o2 + i) ++ ws2,
        failed + o2 + short.length, []⟩

/-- The trailer disambiguation after a `'!'` stored at offset `o - 1`
(p1-lib.c, lines 66-92): read two bytes; `'\x0d'` first means an old-style
telegram of length `o + 2`; otherwise the two bytes start a CRC field and
four more bytes are read (`rtBang4`). -/
def rtBang (o failed : Nat) (buf1 : Nat → Nat) (ws1 : List Nat) : List Nat → BangRes
  | [] =>
      -- both trailer reads return 0: failed += offset + 0
      ⟨none, true, buf1, ws1, failed + o, []⟩
  | [c0] =>
      -- one trailer byte: failed += offset + 1, then the stream is empty
      ⟨none, true, wr buf1 o c0, o :: ws1, failed + o + 1, []⟩
  | c0 :: c1 :: input2 =>
    let buf2 := wr (wr buf1 o c0) (o + 1) c1
    let ws2 := (o + 1) :: o :: ws1
    if c0 = 13 then
      -- old-style telegram without CRC
      ⟨some (o + 2), false, buf2, ws2, failed, input2⟩
    else
      rtBang4 (o + 2) failed buf2 ws2 input2

/-- Embedding of the loop of `read_telegram` (p1-lib.c, lines 53-102).
State: `telegram` (inside-candidate flag), `offset`, `failed`, the buffer
and the write trace.  Each iteration consumes at least one byte of the
stream and one unit of `fuel`, so the fuel-exhaustion branch is never
taken for the fuel `input.length + 1` supplied by `read_telegram`.  The
do-while condition `len > 0 && (maxfailbytes == 0 || failed <
maxfailbytes)` is re-checked before every re-entry; when the trailer reads
hit the end of the stream the next read returns 0 and the loop exits with
result 0, which is returned directly. -/
def rtGo (bufsize maxfail : Nat) : Nat → List Nat → Bool → Nat → Nat → (Nat → Nat) → List Nat → RTRes
  | 0, input, _telegram, _offset, failed, buf, ws =>
      -- out of fuel: unreachable from read_telegram
      ⟨0, buf, ws, failed, input⟩
  | _fuel + 1, [], _telegram, _offset, failed, buf, ws =>
      -- read returns 0: end of stream, loop exits, return 0
      ⟨0, buf, ws, failed, []⟩
  | fuel + 1, b :: input, telegram, offset, failed, buf, ws =>
    if telegram = false ∧ b = 47 then
      -- '/': possible start of telegram
      if maxfail = 0 ∨ failed < maxfail then
        rtGo bufsize maxfail fuel input true (offset + 1) failed (wr buf offset b) (offset :: ws)
      else ⟨0, wr buf offset b, offset :: ws, failed, input⟩
    else if telegram = true ∧ offset < bufsize then
      -- possible telegram content
      let buf1 := wr buf offset b
      let ws1 := offset :: ws
      if b = 33 then
        -- '!': possible end of telegram, try to read either cr + lf or CRC
        let r := rtBang (offset + 1) failed buf1 ws1 input
        match r.result with
        | some len => ⟨len, r.buf, r.ws, r.failed, r.rest⟩
        | none =>
          if r.ended = false ∧ (maxfail = 0 ∨ r.failed < maxfail) then
            rtGo bufsize maxfail fuel r.rest false 0 r.failed r.buf r.ws
          else ⟨0, r.buf, r.ws, r.failed, r.rest⟩
      else if maxfail = 0 ∨ failed < maxfail then
        rtGo bufsize maxfail fuel input true (offset + 1) failed buf1 ws1
      else ⟨0, buf1, ws1, failed, input⟩
    else if bufsize ≤ offset then
      -- buffer overflow before telegram end, restart search for telegrams
      if maxfail = 0 ∨ failed + offset < maxfail then
        rtGo bufsize maxfail fuel input false 0 (failed + offset) buf ws
      else ⟨0, buf, ws, failed + offset, input⟩
    else
      -- searching: silently discard the byte
      if maxfail = 0 ∨ failed < maxfail then
        rtGo bufsize maxfail fuel input telegram offset failed buf ws
      else ⟨0, buf, ws, failed, input⟩

/-- Embedding of `read_telegram` (p1-lib.c, lines 44-107): try to read a
full P1 telegram from the stream `input` into the caller's buffer `buf`. -/
def read_telegram (buf : Nat → Nat) (bufsize maxfailbytes : Nat) (input : List Nat) : RTRes :=
  rtGo bufsize maxfailbytes (input.length + 1) input false 0 0 buf []

/-- The fields the external OBIS grammar (the Ragel parser collaborator)
writes back into the session after `parser_execute`/`parser_finish`:
the CRC value parsed from the telegram trailer (`parser.crc16`), the
finish status (1 final state reached, -1 error, 0 not reached) and the
parse-error counter. -/
structure GrammarOut where
  crc16 : Nat
  status : Int
  parseErrors : Nat

/-- The grammar collaborator as an oracle from the fed bytes to the fields
it reports; the core does not interpret the telegram body itself. -/
def GrammarOracle := List Nat → GrammarOut

/-- The first `len` bytes of a buffer, as fed to the grammar. -/
def telegramBytes (buf : Nat → Nat) (len : Nat) : List Nat :=
  (List.range len).map buf

/-- A `telegram_parser` session as left by `telegram_parser_open` /
`telegram_parser_open_d0`: buffer with its capacity and current length,
terminal flag, configured port speed (the single CBAUD field of the working
`termios`), the persistent mode byte, and the grammar-reported fields. -/
structure Session where
  bufsize : Nat
  buffer : Nat → Nat
  len : Nat
  mode : Nat
  terminal : Bool
  speed : Nat
  parserCrc : Nat
  status : Int

/-- Embedding of `telegram_parser_read` (p1-lib.c, lines 220-281) for a
valid open session (the `NULL`-object and closed-descriptor guards that
return -1 and -3 are outside the model; the `-2` guard survives as the
`bufsize = 0` test).  Returns the status code, the updated session and the
unconsumed input.  The framer is invoked with `maxfailbytes = bufsize`;
on a successful parse the CRC of the telegram is computed; on a zero-length
framing result on a terminal in mode 'P' (80) the port speed is toggled
between 115200 and 9600; finally a non-zero grammar-reported CRC that
differs from the computed one yields -4. -/
def telegram_parser_read (G : GrammarOracle) (s : Session) (input : List Nat) :
    Int × Session × List Nat :=
  if s.bufsize = 0 then (-2, s, input)
  else
    let s1 : Session := { s with parserCrc := 0 }
    let r := read_telegram s.buffer s.bufsize s.bufsize input
    let s2 : Session := { s1 with buffer := r.buf, len := r.result }
    let step : Session × Nat :=
      if r.result ≠ 0 then
        let g := G (telegramBytes r.buf r.result)
        ({ s2 with parserCrc := g.crc16, status := g.status },
          if g.status = 1 then crc_telegram (telegramBytes r.buf r.result) else 0)
      else (s2, 0)
    let s3 := step.1
    let crc := step.2
    let s4 : Session :=
      { s3 with speed :=
          if s3.terminal = true ∧ r.result = 0 ∧ s3.mode = 80 then
            -- try the other baud rate: maybe an old DSMR meter at 9600 baud
            (if s3.speed = 115200 then 9600 else 115200)
          else s3.speed }
    if s4.parserCrc ≠ 0 ∧ s4.parserCrc ≠ crc then (-4, s4, r.rest)
    else (0, s4, r.rest)

/-- Embedding of the meter-identification read loop of
`telegram_parser_read_d0` (p1-lib.c, lines 362-365):
`do { idx += 1; len = read(fd, buffer + idx, 1); }
 while (idx < bufsize && len == 1 && buffer[idx] != 0x0a)`.
Returns the buffer, the final `idx`, the final `len` and the rest of the
stream. -/
def d0ReadId (bufsize : Nat) : (Nat → Nat) → Nat → List Nat → ((Nat → Nat) × Nat × Nat × List Nat)
  | buf, idx, [] => (buf, idx + 1, 0, [])
  | buf, idx, b :: rest =>
    let buf1 := wr buf (idx + 1) b
    if idx + 1 < bufsize ∧ b ≠ 10 then d0ReadId bufsize buf1 (idx + 1) rest
    else (buf1, idx + 1, 1, rest)

/-- Result of the D0 telegram-body loop: final buffer and `idx`, whether the
`'!'` terminator was found, whether the loop aborted with the fatal parse
error (-9), and the rest of the stream. -/
structure D0BodyRes where
  buf : Nat → Nat
  idx : Nat
  telegram : Bool
  aborted : Bool
  rest : List Nat

/-- Embedding of the D0 telegram-body framing loop of
`telegram_parser_read_d0` (p1-lib.c, lines 475-495).  One byte is read per
iteration into `buffer[idx]`; `'!'` (33) stops with success; a byte `b`
with `b < 0x20 || b < 0x7e` aborts the read (the fatal parse error -9);
any other byte is accepted and `idx` advances while `idx < bufsize`. -/
def d0Body (bufsize : Nat) : (Nat → Nat) → Nat → List Nat → D0BodyRes
  | buf, idx, [] =>
      -- read returned no bytes: the while condition len > 0 fails
      ⟨buf, idx, false, false, []⟩
  | buf, idx, b :: rest =>
    let buf1 := wr buf idx b
    if b = 33 then
      -- telegram terminator found at offset idx
      ⟨buf1, idx, true, false, rest⟩
    else if b < 0x20 ∨ b < 0x7e then
      -- "Non-printable bytes in telegram, aborting parser"
      ⟨buf1, idx, false, true, rest⟩
    else if idx + 1 < bufsize then
      d0Body bufsize buf1 (idx + 1) rest
    else
      -- idx reaches bufsize: the while condition idx < bufsize fails
      ⟨buf1, idx + 1, false, false, rest⟩

/-- Result of `telegram_parser_read_d0`: status code, updated session,
unconsumed input, and the full byte trace written to the port during the
call (wake-up NULs, sign-on, ACK and sign-off sequences). -/
structure D0Res where
  ret : Int
  sess : Session
  rest : List Nat
  out : List Nat

/-- Embedding of the tail of `telegram_parser_read_d0` after the handshake
block (p1-lib.c, lines 464-519): `idx += 1`, the buffer-too-small check
(-7), the telegram-body loop, the conditional ACK/sign-off write, storing
`len` and feeding the grammar.  `outPre` is the output trace accumulated by
the handshake. -/
def d0Finish (G : GrammarOracle) (s : Session) (idx0 : Nat) (input outPre : List Nat) : D0Res :=
  let idx := idx0 + 1
  if idx + 1 ≥ s.bufsize then
    -- "Buffer too small to hold telegram"
    ⟨-7, s, input, outPre⟩
  else
    let r := d0Body s.bufsize s.buffer idx input
    if r.aborted then ⟨-9, { s with buffer := r.buf }, r.rest, outPre⟩
    else
      let out :=
        outPre ++ (if r.telegram = true ∧ s.terminal = true ∧ s.mode ≠ 80 then
          [6, 1, 66, 48, 3, 113] else [])
      let g := G (telegramBytes r.buf r.idx)
      ⟨0, { s with buffer := r.buf, len := r.idx, parserCrc := g.crc16, status := g.status },
        r.rest, out⟩

/-- The baud-rate and mode identifier decoding of the `switch` on byte 4 of
the meter identification (p1-lib.c, lines 376-416): the mode byte written
by the cases ('B' = 66 for the letters via fall-through, 'A' = 65 for other
printable characters except '/' and '!', otherwise left 0). -/
def d0ModeOfByte4 (b : Nat) : Nat :=
  if b = 65 ∨ b = 66 ∨ b = 67 ∨ b = 68 ∨ b = 69 ∨ b = 70 ∨ b = 71 then 66
  else if b = 48 ∨ b = 49 ∨ b = 50 ∨ b = 51 ∨ b = 52 ∨ b = 53 ∨ b = 54 then 0
  else if 0x20 ≤ b ∧ b ≠ 47 ∧ b ≠ 33 ∧ b ≤ 0x7e then 65
  else 0

/-- The baud rate selected by the same `switch` (the letter cases fall
through to the digit cases; every other byte leaves the initial 300). -/
def d0BaudOfByte4 (b : Nat) : Nat :=
  if b = 65 ∨ b = 48 then 300
  else if b = 66 ∨ b = 49 then 600
  else if b = 67 ∨ b = 50 then 1200
  else if b = 68 ∨ b = 51 then 2400
  else if b = 69 ∨ b = 52 then 4800
  else if b = 70 ∨ b = 53 then 9600
  else if b = 71 ∨ b = 54 then 19200
  else 300

/-- Embedding of `telegram_parser_read_d0` (p1-lib.c, lines 306-520) for a
valid open session (the `NULL`-object and closed-descriptor guards -1 and -2
are outside the model).  If the device is a terminal and the mode byte is
not 'P' (80), the IEC 62056-21 handshake runs: 65 wake-up NULs and the
sign-on "/?!\x0d\x0a" are written, the identification string is read, the
mode and baud rate are decoded from it (ACK for pending modes, -8 for the
HDLC sub-mode, -5 and -6 for bad identifications); then the telegram body
is framed and the grammar is fed. -/
def telegram_parser_read_d0 (G : GrammarOracle) (s : Session) (input : List Nat) : D0Res :=
  if s.terminal = true ∧ s.mode ≠ 80 then
    let out0 := List.replicate 65 0 ++ [47, 63, 33, 13, 10]
    match input with
    | [] =>
        -- len == 0: "Did not receive a valid meter ID string"
        ⟨-5, s, [], out0⟩
    | b0 :: rest0 =>
      let buf0 := wr s.buffer 0 b0
      if b0 ≠ 47 then ⟨-5, { s with buffer := buf0 }, rest0, out0⟩
      else
        let q := d0ReadId s.bufsize buf0 0 rest0
        let buf1 := q.1
        let idx := q.2.1
        let rest1 := q.2.2.2
        let buf2 := if idx + 1 < s.bufsize then wr buf1 (idx + 1) 0 else buf1
        let sA : Session := { s with buffer := buf2, mode := 0 }
        if buf2 idx = 10 ∧ buf2 (idx - 1) = 13 then
          let baud := d0BaudOfByte4 (buf2 4)
          let sB : Session := { sA with mode := d0ModeOfByte4 (buf2 4) }
          if sB.mode = 0 ∧ buf2 5 = 92 ∧ buf2 6 = 50 then
            -- mode E with byte 6 == '2': unsupported binary HDLC protocol
            ⟨-8, { sB with mode := 69 }, rest1, out0⟩
          else
            let pending := sB.mode = 0
            let sC : Session :=
              if pending then { sB with mode := if buf2 5 = 92 then 69 else 67 } else sB
            let out1 := if pending then out0 ++ [6, 48, buf2 4, 48, 13, 10] else out0
            let sD : Session := if sC.mode ≠ 65 then { sC with speed := baud } else sC
            d0Finish G sD idx rest1 out1
        else
          -- "Invalid meter ID string"
          let buf3 := if idx + 1 < s.bufsize then buf2 else wr buf2 idx 0
          ⟨-6, { sA with buffer := buf3 }, rest1, out0⟩
  else
    d0Finish G s 0 input []

/-- The session produced by `telegram_parser_open_d0` (p1-lib.c, lines
284-303) on a serial device: freshly allocated buffer (modelled zeroed),
length 0, terminal, port configured at 300 baud 7E1, mode byte 0. -/
def openD0Session (bufsize : Nat) : Session :=
  { bufsize := bufsize, buffer := fun _ => 0, len := 0, mode := 0,
    terminal := true, speed := 300, parserCrc := 0, status := 0 }

theorem rtBang4_failed_le (o2 failed : Nat) (buf : Nat → Nat) (ws : List Nat) :
    ∀ input, (rtBang4 o2 failed buf ws input).failed ≤ failed + o2 + 4 := by
  intro input
  rcases input with _ | ⟨d0, _ | ⟨d1, _ | ⟨d2, _ | ⟨d3, input3⟩⟩⟩⟩ <;>
    simp only [rtBang4, List.length_nil, List.length_cons] <;> first
      | omega
      | (split <;> dsimp only <;> omega)

theorem rtBang_failed_le (o failed : Nat) (buf : Nat → Nat) (ws : List Nat) :
    ∀ input, (rtBang o failed buf ws input).failed ≤ failed + o + 6 := by
  intro input
  rcases input with _ | ⟨c0, _ | ⟨c1, input2⟩⟩
  · simp only [rtBang]; omega
  · simp only [rtBang]; omega
  · simp only [rtBang]
    split
    · dsimp only; omega
    · exact le_trans (rtBang4_failed_le (o + 2) failed _ _ input2) (by omega)

/-- Invariant proof for the framer's failed-byte accounting: starting from a
loop state whose failed count is still below the cap (`maxfail > 0`), whose
offset is 0 while searching and at most `bufsize + 1` in general, the final
failed count never exceeds `maxfail + bufsize + 7` (each final increment
adds at most `offset + 6 ≤ bufsize + 6` on top of a count below the cap). -/
theorem rtGo_failed_le (bufsize maxfail : Nat) (hm : 0 < maxfail) :
    ∀ (fuel : Nat) (input : List Nat) (telegram : Bool) (offset failed : Nat)
      (buf : Nat → Nat) (ws : List Nat),
      failed < maxfail → (telegram = false → offset = 0) → offset ≤ bufsize + 1 →
      (rtGo bufsize maxfail fuel input telegram offset failed buf ws).failed ≤
        maxfail + bufsize + 7 := by
  intro fuel
  induction fuel with
  | zero =>
    intro input telegram offset failed buf ws hf _ _
    show failed ≤ maxfail + bufsize + 7
    omega
  | succ fuel ih =>
    intro input telegram offset failed buf ws hf htel hoff
    rcases input with _ | ⟨b, input⟩
    · show failed ≤ maxfail + bufsize + 7
      omega
    · simp only [rtGo]
      by_cases h1 : telegram = false ∧ b = 47
      · rw [if_pos h1]
        by_cases hg : maxfail = 0 ∨ failed < maxfail
        · rw [if_pos hg]
          exact ih input true (offset + 1) failed _ _ hf (by intro h; cases h)
            (by have := htel h1.1; omega)
        · rw [if_neg hg]
          show failed ≤ maxfail + bufsize + 7
          omega
      · rw [if_neg h1]
        by_cases h2 : telegram = true ∧ offset < bufsize
        · rw [if_pos h2]
          by_cases h3 : b = 33
          · rw [if_pos h3]
            have hb := rtBang_failed_le (offset + 1) failed
              (wr buf offset b) (offset :: ws) input
            split
            · dsimp only
              omega
            · split
              · next hcont =>
                rcases hcont.2 with h0 | hlt
                · exact absurd h0 (by omega)
                · exact ih _ false 0 _ _ _ hlt (fun _ => rfl) (by omega)
              · dsimp only
                omega
          · rw [if_neg h3]
            by_cases hg : maxfail = 0 ∨ failed < maxfail
            · rw [if_pos hg]
              exact ih input true (offset + 1) failed _ _ hf (by intro h; cases h) (by omega)
            · rw [if_neg hg]
              show failed ≤ maxfail + bufsize + 7
              omega
        · rw [if_neg h2]
          by_cases h7 : bufsize ≤ offset
          · rw [if_pos h7]
            by_cases hg : maxfail = 0 ∨ failed + offset < maxfail
            · rw [if_pos hg]
              have hf' : failed + offset < maxfail := by
                rcases hg with hg | hg
                · omega
                · exact hg
              exact ih input false 0 _ _ _ hf' (fun _ => rfl) (by omega)
            · rw [if_neg hg]
              show failed + offset ≤ maxfail + bufsize + 7
              omega
          · rw [if_neg h7]
            by_cases hg : maxfail = 0 ∨ failed < maxfail
            · rw [if_pos hg]
              exact ih input telegram offset failed _ _ hf htel hoff
            · rw [if_neg hg]
              show failed ≤ maxfail + bufsize + 7
              omega

/-- Running the identification-read loop on a prefix `pre` free of
line feeds followed by a line feed: the bytes of `pre ++ [0x0a]` are
stored at indices `idx + 1, idx + 2, ...`, the loop stops on the line
feed with `len == 1`, and the rest of the stream is untouched. -/
theorem d0ReadId_spec (bufsize : Nat) :
    ∀ (pre : List Nat) (buf : Nat → Nat) (idx : Nat) (rest : List Nat),
      (∀ b ∈ pre, b ≠ 10) → idx + pre.length < bufsize →
      d0ReadId bufsize buf idx (pre ++ 10 :: rest) =
        (writeSeq buf (idx + 1) (pre ++ [10]), idx + pre.length + 1, 1, rest) := by
  intro pre
  induction pre with
  | nil =>
    intro buf idx rest _ _
    simp only [List.nil_append, d0ReadId, List.length_nil]
    rw [if_neg (by simp)]
    rfl
  | cons p pre ih =>
    intro buf idx rest hne hlen
    have hp : p ≠ 10 := hne p (List.mem_cons_self p pre)
    have hlt : idx + 1 < bufsize := by
      simp only [List.length_cons] at hlen; omega
    simp only [List.cons_append, d0ReadId]
    rw [if_pos ⟨hlt, hp⟩]
    simp only [List.append_eq]
    rw [ih (wr buf (idx + 1) p) (idx + 1) rest
      (fun b hb => hne b (List.mem_cons_of_mem p hb))
      (by simp only [List.length_cons] at hlen; omega)]
    simp only [List.cons_append, writeSeq, List.length_cons]
    have he : idx + 1 + pre.length + 1 = idx + (pre.length + 1) + 1 := by omega
    rw [he]

theorem d0Finish_mode (G : GrammarOracle) (s : Session) (idx0 : Nat)
    (input outPre : List Nat) :
    (d0Finish G s idx0 input outPre).sess.mode = s.mode := by
  simp only [d0Finish]
  split
  · rfl
  · split
    · rfl
    · rfl

theorem d0Finish_speed (G : GrammarOracle) (s : Session) (idx0 : Nat)
    (input outPre : List Nat) :
    (d0Finish G s idx0 input outPre).sess.speed = s.speed := by
  simp only [d0Finish]
  split
  · rfl
  · split
    · rfl
    · rfl

theorem d0Finish_out (G : GrammarOracle) (s : Session) (idx0 : Nat)
    (input outPre : List Nat) :
    ∃ t, (d0Finish G s idx0 input outPre).out = outPre ++ t := by
  simp only [d0Finish]
  split
  · exact ⟨[], (List.append_nil outPre).symm⟩
  · split
    · exact ⟨[], (List.append_nil outPre).symm⟩
    · exact ⟨_, rfl⟩

/-- A trivial grammar oracle (reports CRC 0, final state reached, no parse
errors), used to instantiate concrete runs. -/
def constOracle : GrammarOracle := fun _ => ⟨0, 1, 0⟩

/-- A session as left by `telegram_parser_open` on a serial device
(terminal, mode 'P' = 80) with an 8-byte buffer and the given speed. -/
def p1Session (speed : Nat) : Session :=
  { bufsize := 8, buffer := fun _ => 0, len := 0, mode := 80,
    terminal := true, speed := speed, parserCrc := 0, status := 0 }

/-- After a P1 read whose framing produced no telegram, the session keeps
its mode, has length 0 and a cleared reported CRC, and its speed is toggled
exactly when the device is a terminal in mode 'P'; the call returns 0. -/
theorem tpr_zero (G : GrammarOracle) (s : Session) (input : List Nat)
    (hb : s.bufsize ≠ 0)
    (h0 : (read_telegram s.buffer s.bufsize s.bufsize input).result = 0) :
    telegram_parser_read G s input =
      (0, { s with parserCrc := 0,
                   buffer := (read_telegram s.buffer s.bufsize s.bufsize input).buf,
                   len := 0,
                   speed := if s.terminal = true ∧ s.mode = 80 then
                       (if s.speed = 115200 then 9600 else 115200)
                     else s.speed },
        (read_telegram s.buffer s.bufsize s.bufsize input).rest) := by
  simp only [telegram_parser_read, if_neg hb]
  rw [if_neg (show ¬ ((read_telegram s.buffer s.bufsize s.bufsize input).result ≠ 0) by
    simp [h0])]
  dsimp only
  rw [if_neg (show ¬ ((0 : Nat) ≠ 0 ∧ (0 : Nat) ≠ 0) by simp)]
  rw [h0]
  by_cases hc : s.terminal = true ∧ s.mode = 80
  · rw [if_pos ⟨hc.1, rfl, hc.2⟩, if_pos hc]
  · rw [if_neg (fun h => hc ⟨h.1, h.2.2⟩), if_neg hc]

/-- C1: the claim that `read_telegram` never writes at an index `≥ bufsize`
fails on the code: with `bufsize = 8` and the stream "/aaaaaa!XY", the
trailer disambiguation stores the two bytes after the `'!'` at indices 8
and 9, past the end of the buffer (and the call then returns 0). -/
theorem c1_framer_overflow_evaluation :
    (read_telegram (fun _ => 0) 8 0 [47, 97, 97, 97, 97, 97, 97, 33, 88, 89]).result = 0 ∧
    8 ∈ (read_telegram (fun _ => 0) 8 0 [47, 97, 97, 97, 97, 97, 97, 33, 88, 89]).writes ∧
    9 ∈ (read_telegram (fun _ => 0) 8 0 [47, 97, 97, 97, 97, 97, 97, 33, 88, 89]).writes := by
  decide

/-- C3: the D0 body framer aborts with the fatal parse error (-9) on the
printable byte 'A' (0x41), which the claim says must be accepted, and it
accepts the byte 0x7f, which is outside the claimed printable range
[0x20..0x7e]: the abort condition in the code is `b < 0x20 || b < 0x7e`
instead of the intended `b < 0x20 || b > 0x7e`. -/
theorem c3_printable_abort_evaluation :
    (d0Body 64 (fun _ => 0) 1 [65, 33]).aborted = true ∧
    (d0Body 64 (fun _ => 0) 1 [127, 33]).aborted = false ∧
    (d0Body 64 (fun _ => 0) 1 [127, 33]).telegram = true ∧
    (telegram_parser_read_d0 constOracle
      { bufsize := 64, buffer := fun _ => 0, len := 0, mode := 80,
        terminal := false, speed := 115200, parserCrc := 0, status := 0 } [65, 33]).ret = -9 := by
  decide

/-- C4 (counterexample): on a terminal session in mode 'P' opened at
115200 baud, two consecutive reads that each frame no telegram (empty
stream) leave the speed at 115200, not at the opposite rate 9600 that the
claim asserts: the toggle is an involution. -/
theorem c4_counterexample :
    ((telegram_parser_read constOracle (p1Session 115200) []).2.1).len = 0 ∧
    ((telegram_parser_read constOracle
        ((telegram_parser_read constOracle (p1Session 115200) []).2.1) []).2.1).len = 0 ∧
    ((telegram_parser_read constOracle
        ((telegram_parser_read constOracle (p1Session 115200) []).2.1) []).2.1).speed = 115200 ∧
    ¬ ((telegram_parser_read constOracle
        ((telegram_parser_read constOracle (p1Session 115200) []).2.1) []).2.1).speed = 9600 := by
  decide

/-- C4 (amended): each zero-length P1 read on a terminal in mode 'P'
toggles the configured rate between 115200 and 9600, so after one such
read the port is at the opposite rate and after two consecutive ones it is
back at the initial rate. -/
theorem c4_amended_double_toggle (G : GrammarOracle) (s : Session) (in1 in2 : List Nat)
    (hb : s.bufsize ≠ 0) (ht : s.terminal = true) (hmo : s.mode = 80)
    (hsp : s.speed = 115200 ∨ s.speed = 9600)
    (h1 : (read_telegram s.buffer s.bufsize s.bufsize in1).result = 0)
    (h2 : (read_telegram (read_telegram s.buffer s.bufsize s.bufsize in1).buf
        s.bufsize s.bufsize in2).result = 0) :
    ((telegram_parser_read G s in1).2.1).speed = (if s.speed = 115200 then 9600 else 115200) ∧
    ((telegram_parser_read G ((telegram_parser_read G s in1).2.1) in2).2.1).speed = s.speed := by
  rw [tpr_zero G s in1 hb h1]
  dsimp only
  rw [if_pos ⟨ht, hmo⟩]
  refine ⟨rfl, ?_⟩
  rw [tpr_zero G
    { bufsize := s.bufsize, buffer := (read_telegram s.buffer s.bufsize s.bufsize in1).buf,
      len := 0, mode := s.mode, terminal := s.terminal,
      speed := if s.speed = 115200 then 9600 else 115200, parserCrc := 0, status := s.status }
    in2 hb h2]
  dsimp only
  rw [if_pos ⟨ht, hmo⟩]
  rcases hsp with h | h <;> rw [h] <;> decide

/-- C4 (witness): the amended double-toggle theorem applied to a concrete
terminal session at 115200 baud and two empty input streams. -/
theorem c4_amended_double_toggle_witness :
    ((telegram_parser_read constOracle (p1Session 115200) []).2.1).speed =
      (if (p1Session 115200).speed = 115200 then 9600 else 115200) ∧
    ((telegram_parser_read constOracle
        ((telegram_parser_read constOracle (p1Session 115200) []).2.1) []).2.1).speed =
      (p1Session 115200).speed :=
  c4_amended_double_toggle constOracle (p1Session 115200) [] [] (by decide) (by decide)
    (by decide) (by decide) (by decide) (by decide)

/-- C5 (counterexample): a buffered telegram of length 8 whose bytes at
indices L-7 and L-3 are both '!' (0x21): the code takes the old-style
branch and returns 0, while the claim's new-style clause demands the CRC-16
of the first two bytes, which is non-zero. -/
theorem c5_counterexample :
    ([65, 33, 66, 67, 68, 33, 69, 70] : List Nat).length = 8 ∧
    ([65, 33, 66, 67, 68, 33, 69, 70] : List Nat).getD 1 0 = 33 ∧
    crc_telegram [65, 33, 66, 67, 68, 33, 69, 70] ≠
      crc16 (([65, 33, 66, 67, 68, 33, 69, 70] : List Nat).take 2) := by
  decide

/-- C5 (amended): for a buffered telegram of length L ≥ 7, if the byte at
L-3 is '!' the verification returns 0 (not applicable); if the byte at L-3
is not '!' and the byte at L-7 is '!', the computed value is the CRC-16 of
exactly the first L-6 bytes (up to and including the '!'). -/
theorem c5_amended_crc_branches (data : List Nat) (_h7 : 7 ≤ data.length) :
    (data.getD (data.length - 3) 0 = 33 → crc_telegram data = 0) ∧
    (data.getD (data.length - 3) 0 ≠ 33 → data.getD (data.length - 7) 0 = 33 →
      crc_telegram data = crc16 (data.take (data.length - 6))) := by
  constructor
  · intro h
    simp only [crc_telegram]
    rw [if_pos h]
  · intro h1 h2
    simp only [crc_telegram]
    rw [if_neg h1, if_pos h2]

/-- C5 (witness): the amended CRC-branch theorem applied to the 7-byte
old-style telegram "/abc!\x0d\x0a" and evaluated there. -/
theorem c5_amended_crc_branches_witness :
    7 ≤ ([47, 97, 98, 99, 33, 13, 10] : List Nat).length ∧
    ((([47, 97, 98, 99, 33, 13, 10] : List Nat).getD
        (([47, 97, 98, 99, 33, 13, 10] : List Nat).length - 3) 0 = 33 →
      crc_telegram [47, 97, 98, 99, 33, 13, 10] = 0) ∧
     (([47, 97, 98, 99, 33, 13, 10] : List Nat).getD
        (([47, 97, 98, 99, 33, 13, 10] : List Nat).length - 3) 0 ≠ 33 →
      ([47, 97, 98, 99, 33, 13, 10] : List Nat).getD
        (([47, 97, 98, 99, 33, 13, 10] : List Nat).length - 7) 0 = 33 →
      crc_telegram [47, 97, 98, 99, 33, 13, 10] =
        crc16 (([47, 97, 98, 99, 33, 13, 10] : List Nat).take
          (([47, 97, 98, 99, 33, 13, 10] : List Nat).length - 6)))) :=
  ⟨by decide, c5_amended_crc_branches [47, 97, 98, 99, 33, 13, 10] (by decide)⟩

/-- C6 (counterexample): with `max_fail_bytes = 1` and `bufsize = 8`, a
stream of 17 junk bytes (none of them '/') is consumed in its entirety
before `read_telegram` returns 0, although 17 > 1 + 8 + 7: bytes discarded
while searching for a telegram start are not counted toward the cap. -/
theorem c6_counterexample :
    (read_telegram (fun _ => 0) 8 1 (List.replicate 17 97)).result = 0 ∧
    (read_telegram (fun _ => 0) 8 1 (List.replicate 17 97)).rest = [] ∧
    (List.replicate 17 97 : List Nat).length = 17 ∧ 1 + 8 + 7 < 17 := by
  decide

/-- C6 (amended): for every input stream, every `bufsize` and every cap
`M > 0`, when `read_telegram` returns, its failed-byte count (the bytes
consumed as part of abandoned telegram candidates, the quantity the cap is
checked against) is at most `M + bufsize + 7`; bytes discarded while
searching for '/' are not counted, so the total consumption is unbounded. -/
theorem c6_amended_failed_bound (buf : Nat → Nat) (bufsize maxfail : Nat)
    (input : List Nat) (hm : 0 < maxfail) :
    (read_telegram buf bufsize maxfail input).failed ≤ maxfail + bufsize + 7 :=
  rtGo_failed_le bufsize maxfail hm (input.length + 1) input false 0 0 buf []
    hm (fun _ => rfl) (Nat.zero_le _)

/-- C6 (witness): the amended failed-byte bound applied to a concrete run
(bufsize 8, cap 1, a lone telegram start byte). -/
theorem c6_amended_failed_bound_witness :
    (read_telegram (fun _ => 0) 8 1 [47, 97]).failed ≤ 1 + 8 + 7 :=
  c6_amended_failed_bound (fun _ => 0) 8 1 [47, 97] (by decide)

/-- C9: `telegram_parser_read` returns the CRC-mismatch error -4 exactly
when framing produced a telegram and the grammar-reported CRC field is
non-zero and differs from the value the call computed (the `crc_telegram`
result when the grammar reached its final state, 0 otherwise); in
particular a reported CRC field of 0 never yields the mismatch error. -/
theorem c9_crc_mismatch_guard (G : GrammarOracle) (s : Session) (input : List Nat) :
    (telegram_parser_read G s input).1 = -4 ↔
      (s.bufsize ≠ 0 ∧
        (read_telegram s.buffer s.bufsize s.bufsize input).result ≠ 0 ∧
        (G (telegramBytes (read_telegram s.buffer s.bufsize s.bufsize input).buf
            (read_telegram s.buffer s.bufsize s.bufsize input).result)).crc16 ≠ 0 ∧
        (G (telegramBytes (read_telegram s.buffer s.bufsize s.bufsize input).buf
            (read_telegram s.buffer s.bufsize s.bufsize input).result)).crc16 ≠
          (if (G (telegramBytes (read_telegram s.buffer s.bufsize s.bufsize input).buf
              (read_telegram s.buffer s.bufsize s.bufsize input).result)).status = 1 then
            crc_telegram (telegramBytes (read_telegram s.buffer s.bufsize s.bufsize input).buf
              (read_telegram s.buffer s.bufsize s.bufsize input).result)
          else 0)) := by
  by_cases hb : s.bufsize = 0
  · simp only [telegram_parser_read, if_pos hb]
    exact iff_of_false (show ¬ ((-2 : Int) = -4) by decide) (fun h => h.1 hb)
  · simp only [telegram_parser_read, if_neg hb]
    by_cases h0 : (read_telegram s.buffer s.bufsize s.bufsize input).result ≠ 0
    · rw [if_pos h0]
      dsimp only
      set g := G (telegramBytes (read_telegram s.buffer s.bufsize s.bufsize input).buf
        (read_telegram s.buffer s.bufsize s.bufsize input).result) with hgdef
      set cv := (if g.status = 1 then
          crc_telegram (telegramBytes (read_telegram s.buffer s.bufsize s.bufsize input).buf
            (read_telegram s.buffer s.bufsize s.bufsize input).result)
        else 0) with hcvdef
      by_cases hcond : g.crc16 ≠ 0 ∧ g.crc16 ≠ cv
      · rw [if_pos hcond]
        exact iff_of_true rfl ⟨hb, h0, hcond.1, hcond.2⟩
      · rw [if_neg hcond]
        exact iff_of_false (show ¬ ((0 : Int) = -4) by decide)
          (fun h => hcond ⟨h.2.2.1, h.2.2.2⟩)
    · rw [if_neg h0]
      dsimp only
      rw [if_neg (show ¬ ((0 : Nat) ≠ 0 ∧ (0 : Nat) ≠ 0) by simp)]
      exact iff_of_false (show ¬ ((0 : Int) = -4) by decide) (fun h => h0 h.2.1)

/-- C10: whenever the framer produces length 0 on a valid open P1 session,
`telegram_parser_read` returns the success code 0 and leaves the stored
telegram length at 0; no negative no-data code exists. -/
theorem c10_framer_zero_returns_success (G : GrammarOracle) (s : Session)
    (input : List Nat) (hb : s.bufsize ≠ 0)
    (h0 : (read_telegram s.buffer s.bufsize s.bufsize input).result = 0) :
    (telegram_parser_read G s input).1 = 0 ∧
    ((telegram_parser_read G s input).2.1).len = 0 := by
  rw [tpr_zero G s input hb h0]
  exact ⟨rfl, rfl⟩

/-- C10 (witness): the zero-length success theorem applied to a concrete
session and an empty stream. -/
theorem c10_framer_zero_returns_success_witness :
    (telegram_parser_read constOracle (p1Session 115200) []).1 = 0 ∧
    ((telegram_parser_read constOracle (p1Session 115200) []).2.1).len = 0 :=
  c10_framer_zero_returns_success constOracle (p1Session 115200) [] (by decide) (by decide)

/-- C2 (counterexample): a D0 session that has completed a full successful
read (identification "/ABC5X", mode resolved and stored as 'C' = 67, a
body, sign-off) still runs the complete handshake on the next `read_d0`
call: the second call's write trace again starts with the 65 wake-up NULs
and the sign-on sequence. -/
theorem c2_counterexample :
    (telegram_parser_read_d0 constOracle (openD0Session 64)
        [47, 65, 66, 67, 53, 88, 13, 10, 126, 33]).ret = 0 ∧
    (telegram_parser_read_d0 constOracle (openD0Session 64)
        [47, 65, 66, 67, 53, 88, 13, 10, 126, 33]).sess.mode = 67 ∧
    (telegram_parser_read_d0 constOracle
        (telegram_parser_read_d0 constOracle (openD0Session 64)
          [47, 65, 66, 67, 53, 88, 13, 10, 126, 33]).sess
        []).out.take 70 = List.replicate 65 0 ++ [47, 63, 33, 13, 10] := by
  decide

theorem d0Finish_out_take70 (G : GrammarOracle) (s : Session) (idx0 : Nat)
    (input outPre t0 : List Nat)
    (h : outPre = (List.replicate 65 0 ++ [47, 63, 33, 13, 10]) ++ t0) :
    (d0Finish G s idx0 input outPre).out.take 70 =
      List.replicate 65 0 ++ [47, 63, 33, 13, 10] := by
  obtain ⟨t, hT⟩ := d0Finish_out G s idx0 input outPre
  rw [hT, h, List.append_assoc]
  exact List.take_left' (by decide)

theorem d0Finish_out_take_len (G : GrammarOracle) (s : Session) (idx0 : Nat)
    (input outPre : List Nat) (n : Nat) (h : outPre.length = n) :
    (d0Finish G s idx0 input outPre).out.take n = outPre := by
  obtain ⟨t, hT⟩ := d0Finish_out G s idx0 input outPre
  rw [hT]
  exact List.take_left' h

theorem getLast13 (front : List Nat) :
    (front ++ [13]).getD ((front ++ [13]).length - 1) 0 = 13 := by
  simp only [List.length_append, List.length_cons, List.length_nil]
  rw [List.getD_append_right _ _ _ _ (by omega)]
  simp

/-- C2 (amended): on a terminal session whose mode byte is not 'P' (80) —
including every resolved mode stored by an earlier successful handshake —
each `read_d0` call re-runs the handshake: its write trace always starts
with the 65 wake-up NULs followed by the sign-on sequence.  The handshake
is skipped only when the device is not a terminal or the mode is 'P'. -/
theorem c2_amended_rehandshake (G : GrammarOracle) (s : Session) (input : List Nat)
    (ht : s.terminal = true) (hm : s.mode ≠ 80) :
    (telegram_parser_read_d0 G s input).out.take 70 =
      List.replicate 65 0 ++ [47, 63, 33, 13, 10] := by
  have hout0 : ((List.replicate 65 0 ++ [47, 63, 33, 13, 10] : List Nat)).take 70 =
      List.replicate 65 0 ++ [47, 63, 33, 13, 10] := by decide
  simp only [telegram_parser_read_d0,
    if_pos (show s.terminal = true ∧ s.mode ≠ 80 from ⟨ht, hm⟩)]
  rcases input with _ | ⟨b0, rest0⟩
  · exact hout0
  · repeat' split
    all_goals first
      | exact hout0
      | exact d0Finish_out_take70 _ _ _ _ _ _ rfl

/-- C2 (witness): the amended re-handshake theorem applied to a freshly
opened D0 session (terminal, mode 0) and an empty stream. -/
theorem c2_amended_rehandshake_witness :
    (telegram_parser_read_d0 constOracle (openD0Session 64) []).out.take 70 =
      List.replicate 65 0 ++ [47, 63, 33, 13, 10] :=
  c2_amended_rehandshake constOracle (openD0Session 64) [] (by decide) (by decide)

/-- Execution of the D0 handshake on a well-terminated identification
string `'/' :: pre ++ [0x0a]` whose byte 4 leaves the mode pending and
which does not select the HDLC sub-mode: the mode is resolved to 'E' (69)
if byte 5 is a backslash and to 'C' (67) otherwise, the ACK sequence
echoing byte 4 is written after the wake-up and sign-on, the baud rate
decoded from byte 4 is applied, and the body phase starts one past the
identification terminator. -/
theorem read_d0_pending (G : GrammarOracle) (s : Session) (pre body : List Nat)
    (ht : s.terminal = true) (hm : s.mode ≠ 80)
    (hne : ∀ b ∈ pre, b ≠ 10) (h6 : 6 ≤ pre.length) (hlen : pre.length < s.bufsize)
    (hcr : pre.getD (pre.length - 1) 0 = 13)
    (hmode0 : d0ModeOfByte4 (pre.getD 3 0) = 0)
    (hnotHdlc : ¬ (pre.getD 4 0 = 92 ∧ pre.getD 5 0 = 50)) :
    telegram_parser_read_d0 G s (47 :: (pre ++ 10 :: body)) =
      d0Finish G
        { s with
            buffer := (if pre.length + 1 + 1 < s.bufsize then
                wr (writeSeq (wr s.buffer 0 47) 1 (pre ++ [10])) (pre.length + 1 + 1) 0
              else writeSeq (wr s.buffer 0 47) 1 (pre ++ [10])),
            mode := if pre.getD 4 0 = 92 then 69 else 67,
            speed := d0BaudOfByte4 (pre.getD 3 0) }
        (pre.length + 1) body
        ((List.replicate 65 0 ++ [47, 63, 33, 13, 10]) ++
          [6, 48, pre.getD 3 0, 48, 13, 10]) := by
  have hget : ∀ j, 1 ≤ j → j - 1 < pre.length + 1 →
      writeSeq (wr s.buffer 0 47) 1 (pre ++ [10]) j = (pre ++ [10]).getD (j - 1) 0 := by
    intro j h1 h2
    rw [writeSeq_get]
    rw [if_pos ⟨h1, by
      simp only [List.length_append, List.length_cons, List.length_nil]
      omega⟩]
  have hb2 : ∀ j, j ≠ pre.length + 1 + 1 →
      (if pre.length + 1 + 1 < s.bufsize then
          wr (writeSeq (wr s.buffer 0 47) 1 (pre ++ [10])) (pre.length + 1 + 1) 0
        else writeSeq (wr s.buffer 0 47) 1 (pre ++ [10])) j =
        writeSeq (wr s.buffer 0 47) 1 (pre ++ [10]) j := by
    intro j hj
    split
    · exact wr_other _ _ _ _ hj
    · rfl
  have e4 : (if pre.length + 1 + 1 < s.bufsize then
        wr (writeSeq (wr s.buffer 0 47) 1 (pre ++ [10])) (pre.length + 1 + 1) 0
      else writeSeq (wr s.buffer 0 47) 1 (pre ++ [10])) 4 = pre.getD 3 0 := by
    rw [hb2 4 (by omega), hget 4 (by omega) (by omega)]
    exact List.getD_append _ _ _ _ (by omega)
  have e5 : (if pre.length + 1 + 1 < s.bufsize then
        wr (writeSeq (wr s.buffer 0 47) 1 (pre ++ [10])) (pre.length + 1 + 1) 0
      else writeSeq (wr s.buffer 0 47) 1 (pre ++ [10])) 5 = pre.getD 4 0 := by
    rw [hb2 5 (by omega), hget 5 (by omega) (by omega)]
    exact List.getD_append _ _ _ _ (by omega)
  have e6 : (if pre.length + 1 + 1 < s.bufsize then
        wr (writeSeq (wr s.buffer 0 47) 1 (pre ++ [10])) (pre.length + 1 + 1) 0
      else writeSeq (wr s.buffer 0 47) 1 (pre ++ [10])) 6 = pre.getD 5 0 := by
    rw [hb2 6 (by omega), hget 6 (by omega) (by omega)]
    exact List.getD_append _ _ _ _ (by omega)
  have eidx : (if pre.length + 1 + 1 < s.bufsize then
        wr (writeSeq (wr s.buffer 0 47) 1 (pre ++ [10])) (pre.length + 1 + 1) 0
      else writeSeq (wr s.buffer 0 47) 1 (pre ++ [10])) (pre.length + 1) = 10 := by
    rw [hb2 _ (by omega), hget _ (by omega) (by omega)]
    have hn : pre.length + 1 - 1 = pre.length := by omega
    rw [hn, List.getD_append_right _ _ _ _ (le_refl _)]
    simp
  have eidxm : (if pre.length + 1 + 1 < s.bufsize then
        wr (writeSeq (wr s.buffer 0 47) 1 (pre ++ [10])) (pre.length + 1 + 1) 0
      else writeSeq (wr s.buffer 0 47) 1 (pre ++ [10])) (pre.length + 1 - 1) = 13 := by
    have hn : pre.length + 1 - 1 = pre.length := by omega
    rw [hn, hb2 _ (by omega), hget _ (by omega) (by omega)]
    rw [List.getD_append _ _ _ _ (by omega)]
    exact hcr
  simp only [telegram_parser_read_d0,
    if_pos (show s.terminal = true ∧ s.mode ≠ 80 from ⟨ht, hm⟩)]
  rw [if_neg (show ¬ ((47 : Nat) ≠ 47) by decide)]
  rw [d0ReadId_spec s.bufsize pre (wr s.buffer 0 47) 0 body hne (by omega)]
  simp only [Nat.zero_add]
  rw [e4, e5, e6, eidx, eidxm]
  rw [if_pos ⟨rfl, rfl⟩]
  rw [if_neg (fun hx => hnotHdlc ⟨hx.2.1, hx.2.2⟩)]
  rw [if_pos hmode0, if_pos hmode0]
  rw [if_pos (show (if pre.getD 4 0 = 92 then (69 : Nat) else 67) ≠ 65 by
    split
    · decide
    · decide)]

/-- Execution of the D0 handshake on a well-terminated identification
string whose byte 4 leaves the mode pending and whose bytes 5 and 6 select
the IEC 62056-21 binary HDLC sub-protocol: the call fails with -8 after
storing mode 'E' (69), writing only the wake-up and sign-on bytes and
consuming nothing past the identification string. -/
theorem read_d0_hdlc (G : GrammarOracle) (s : Session) (pre body : List Nat)
    (ht : s.terminal = true) (hm : s.mode ≠ 80)
    (hne : ∀ b ∈ pre, b ≠ 10) (h6 : 6 ≤ pre.length) (hlen : pre.length < s.bufsize)
    (hcr : pre.getD (pre.length - 1) 0 = 13)
    (hmode0 : d0ModeOfByte4 (pre.getD 3 0) = 0)
    (h92 : pre.getD 4 0 = 92) (h50 : pre.getD 5 0 = 50) :
    telegram_parser_read_d0 G s (47 :: (pre ++ 10 :: body)) =
      ⟨-8,
        { s with
            buffer := (if pre.length + 1 + 1 < s.bufsize then
                wr (writeSeq (wr s.buffer 0 47) 1 (pre ++ [10])) (pre.length + 1 + 1) 0
              else writeSeq (wr s.buffer 0 47) 1 (pre ++ [10])),
            mode := 69 },
        body, List.replicate 65 0 ++ [47, 63, 33, 13, 10]⟩ := by
  have hget : ∀ j, 1 ≤ j → j - 1 < pre.length + 1 →
      writeSeq (wr s.buffer 0 47) 1 (pre ++ [10]) j = (pre ++ [10]).getD (j - 1) 0 := by
    intro j h1 h2
    rw [writeSeq_get]
    rw [if_pos ⟨h1, by
      simp only [List.length_append, List.length_cons, List.length_nil]
      omega⟩]
  have hb2 : ∀ j, j ≠ pre.length + 1 + 1 →
      (if pre.length + 1 + 1 < s.bufsize then
          wr (writeSeq (wr s.buffer 0 47) 1 (pre ++ [10])) (pre.length + 1 + 1) 0
        else writeSeq (wr s.buffer 0 47) 1 (pre ++ [10])) j =
        writeSeq (wr s.buffer 0 47) 1 (pre ++ [10]) j := by
    intro j hj
    split
    · exact wr_other _ _ _ _ hj
    · rfl
  have e4 : (if pre.length + 1 + 1 < s.bufsize then
        wr (writeSeq (wr s.buffer 0 47) 1 (pre ++ [10])) (pre.length + 1 + 1) 0
      else writeSeq (wr s.buffer 0 47) 1 (pre ++ [10])) 4 = pre.getD 3 0 := by
    rw [hb2 4 (by omega), hget 4 (by omega) (by omega)]
    exact List.getD_append _ _ _ _ (by omega)
  have e5 : (if pre.length + 1 + 1 < s.bufsize then
        wr (writeSeq (wr s.buffer 0 47) 1 (pre ++ [10])) (pre.length + 1 + 1) 0
      else writeSeq (wr s.buffer 0 47) 1 (pre ++ [10])) 5 = pre.getD 4 0 := by
    rw [hb2 5 (by omega), hget 5 (by omega) (by omega)]
    exact List.getD_append _ _ _ _ (by omega)
  have e6 : (if pre.length + 1 + 1 < s.bufsize then
        wr (writeSeq (wr s.buffer 0 47) 1 (pre ++ [10])) (pre.length + 1 + 1) 0
      else writeSeq (wr s.buffer 0 47) 1 (pre ++ [10])) 6 = pre.getD 5 0 := by
    rw [hb2 6 (by omega), hget 6 (by omega) (by omega)]
    exact List.getD_append _ _ _ _ (by omega)
  have eidx : (if pre.length + 1 + 1 < s.bufsize then
        wr (writeSeq (wr s.buffer 0 47) 1 (pre ++ [10])) (pre.length + 1 + 1) 0
      else writeSeq (wr s.buffer 0 47) 1 (pre ++ [10])) (pre.length + 1) = 10 := by
    rw [hb2 _ (by omega), hget _ (by omega) (by omega)]
    have hn : pre.length + 1 - 1 = pre.length := by omega
    rw [hn, List.getD_append_right _ _ _ _ (le_refl _)]
    simp
  have eidxm : (if pre.length + 1 + 1 < s.bufsize then
        wr (writeSeq (wr s.buffer 0 47) 1 (pre ++ [10])) (pre.length + 1 + 1) 0
      else writeSeq (wr s.buffer 0 47) 1 (pre ++ [10])) (pre.length + 1 - 1) = 13 := by
    have hn : pre.length + 1 - 1 = pre.length := by omega
    rw [hn, hb2 _ (by omega), hget _ (by omega) (by omega)]
    rw [List.getD_append _ _ _ _ (by omega)]
    exact hcr
  simp only [telegram_parser_read_d0,
    if_pos (show s.terminal = true ∧ s.mode ≠ 80 from ⟨ht, hm⟩)]
  rw [if_neg (show ¬ ((47 : Nat) ≠ 47) by decide)]
  rw [d0ReadId_spec s.bufsize pre (wr s.buffer 0 47) 0 body hne (by omega)]
  simp only [Nat.zero_add]
  rw [e4, e5, e6, eidx, eidxm]
  rw [if_pos ⟨rfl, rfl⟩]
  rw [if_pos ⟨hmode0, h92, h50⟩]

/-- C7: a D0 handshake receiving a well-terminated identification string
whose byte 4 is '5' (53) and whose byte 5 is not a backslash writes the ACK
sequence 0x06 '0' '5' '0' 0x0d 0x0a (the middle byte echoing byte 4) right
after the wake-up and sign-on bytes, reconfigures the port to 9600 baud,
and stores mode 'C' (67) in the session. -/
theorem c7_pending_ack_baud_mode (G : GrammarOracle) (s : Session)
    (t1 t2 t3 b5 : Nat) (mid body : List Nat)
    (ht : s.terminal = true) (hm : s.mode ≠ 80)
    (hne : ∀ b ∈ [t1, t2, t3, 53, b5] ++ mid ++ [13], b ≠ 10)
    (hb5 : b5 ≠ 92)
    (hlen : ([t1, t2, t3, 53, b5] ++ mid ++ [13]).length < s.bufsize) :
    (telegram_parser_read_d0 G s
        (47 :: (([t1, t2, t3, 53, b5] ++ mid ++ [13]) ++ 10 :: body))).sess.mode = 67 ∧
    (telegram_parser_read_d0 G s
        (47 :: (([t1, t2, t3, 53, b5] ++ mid ++ [13]) ++ 10 :: body))).sess.speed = 9600 ∧
    (telegram_parser_read_d0 G s
        (47 :: (([t1, t2, t3, 53, b5] ++ mid ++ [13]) ++ 10 :: body))).out.take 76 =
      (List.replicate 65 0 ++ [47, 63, 33, 13, 10]) ++ [6, 48, 53, 48, 13, 10] := by
  have hp3 : (([t1, t2, t3, 53, b5] ++ mid ++ [13] : List Nat)).getD 3 0 = 53 := rfl
  have hp4 : (([t1, t2, t3, 53, b5] ++ mid ++ [13] : List Nat)).getD 4 0 = b5 := rfl
  have h6 : 6 ≤ (([t1, t2, t3, 53, b5] ++ mid ++ [13] : List Nat)).length := by
    simp only [List.length_append, List.length_cons, List.length_nil]
    omega
  have hcr : (([t1, t2, t3, 53, b5] ++ mid ++ [13] : List Nat)).getD
      ((([t1, t2, t3, 53, b5] ++ mid ++ [13] : List Nat)).length - 1) 0 = 13 := by
    exact getLast13 ([t1, t2, t3, 53, b5] ++ mid)
  have hmode0 : d0ModeOfByte4 ((([t1, t2, t3, 53, b5] ++ mid ++ [13] : List Nat)).getD 3 0) = 0 := by
    rw [hp3]
    decide
  have hnotHdlc : ¬ ((([t1, t2, t3, 53, b5] ++ mid ++ [13] : List Nat)).getD 4 0 = 92 ∧
      (([t1, t2, t3, 53, b5] ++ mid ++ [13] : List Nat)).getD 5 0 = 50) :=
    fun hx => hb5 (hp4.symm.trans hx.1)
  rw [read_d0_pending G s ([t1, t2, t3, 53, b5] ++ mid ++ [13]) body ht hm hne h6 hlen hcr
    hmode0 hnotHdlc]
  refine ⟨?_, ?_, ?_⟩
  · rw [d0Finish_mode]
    show (if (([t1, t2, t3, 53, b5] ++ mid ++ [13] : List Nat)).getD 4 0 = 92 then
        (69 : Nat) else 67) = 67
    rw [hp4, if_neg hb5]
  · rw [d0Finish_speed]
    show d0BaudOfByte4 ((([t1, t2, t3, 53, b5] ++ mid ++ [13] : List Nat)).getD 3 0) = 9600
    rw [hp3]
    decide
  · rw [hp3]
    exact d0Finish_out_take_len _ _ _ _ _ 76 (by decide)

/-- C7 (witness): the pending-mode ACK theorem applied to the concrete
identification string "/XXX5B\x0d\x0a" on a freshly opened D0 session. -/
theorem c7_pending_ack_baud_mode_witness :
    (telegram_parser_read_d0 constOracle (openD0Session 64)
        (47 :: (([88, 88, 88, 53, 66] ++ [] ++ [13]) ++ 10 :: []))).sess.mode = 67 ∧
    (telegram_parser_read_d0 constOracle (openD0Session 64)
        (47 :: (([88, 88, 88, 53, 66] ++ [] ++ [13]) ++ 10 :: []))).sess.speed = 9600 ∧
    (telegram_parser_read_d0 constOracle (openD0Session 64)
        (47 :: (([88, 88, 88, 53, 66] ++ [] ++ [13]) ++ 10 :: []))).out.take 76 =
      (List.replicate 65 0 ++ [47, 63, 33, 13, 10]) ++ [6, 48, 53, 48, 13, 10] :=
  c7_pending_ack_baud_mode constOracle (openD0Session 64) 88 88 88 66 [] []
    (by decide) (by decide) (by decide) (by decide) (by decide)

/-- C8: a D0 handshake receiving a well-terminated identification string
whose byte 4 is a digit '0'..'6' (mode pending), whose byte 5 is a
backslash and whose byte 6 is '2' fails with the unsupported-mode error -8
before writing any ACK byte (the write trace is exactly the wake-up and
sign-on) and without reading any telegram body byte. -/
theorem c8_hdlc_unsupported (G : GrammarOracle) (s : Session)
    (t1 t2 t3 b4 : Nat) (mid body : List Nat)
    (ht : s.terminal = true) (hm : s.mode ≠ 80)
    (hd : b4 = 48 ∨ b4 = 49 ∨ b4 = 50 ∨ b4 = 51 ∨ b4 = 52 ∨ b4 = 53 ∨ b4 = 54)
    (hne : ∀ b ∈ [t1, t2, t3, b4, 92, 50] ++ mid ++ [13], b ≠ 10)
    (hlen : ([t1, t2, t3, b4, 92, 50] ++ mid ++ [13]).length < s.bufsize) :
    (telegram_parser_read_d0 G s
        (47 :: (([t1, t2, t3, b4, 92, 50] ++ mid ++ [13]) ++ 10 :: body))).ret = -8 ∧
    (telegram_parser_read_d0 G s
        (47 :: (([t1, t2, t3, b4, 92, 50] ++ mid ++ [13]) ++ 10 :: body))).out =
      List.replicate 65 0 ++ [47, 63, 33, 13, 10] ∧
    (telegram_parser_read_d0 G s
        (47 :: (([t1, t2, t3, b4, 92, 50] ++ mid ++ [13]) ++ 10 :: body))).rest = body := by
  have hp3 : (([t1, t2, t3, b4, 92, 50] ++ mid ++ [13] : List Nat)).getD 3 0 = b4 := rfl
  have h6 : 6 ≤ (([t1, t2, t3, b4, 92, 50] ++ mid ++ [13] : List Nat)).length := by
    simp only [List.length_append, List.length_cons, List.length_nil]
    omega
  have hcr : (([t1, t2, t3, b4, 92, 50] ++ mid ++ [13] : List Nat)).getD
      ((([t1, t2, t3, b4, 92, 50] ++ mid ++ [13] : List Nat)).length - 1) 0 = 13 := by
    exact getLast13 ([t1, t2, t3, b4, 92, 50] ++ mid)
  have hmode0 : d0ModeOfByte4
      ((([t1, t2, t3, b4, 92, 50] ++ mid ++ [13] : List Nat)).getD 3 0) = 0 := by
    rw [hp3]
    rcases hd with h | h | h | h | h | h | h <;> rw [h] <;> decide
  rw [read_d0_hdlc G s ([t1, t2, t3, b4, 92, 50] ++ mid ++ [13]) body ht hm hne h6 hlen hcr
    hmode0 rfl rfl]
  exact ⟨rfl, rfl, rfl⟩

/-- C8 (witness): the unsupported-HDLC theorem applied to the concrete
identification string "/XXX0\x5c2\x0d\x0a" on a freshly opened D0 session. -/
theorem c8_hdlc_unsupported_witness :
    (telegram_parser_read_d0 constOracle (openD0Session 64)
        (47 :: (([88, 88, 88, 48, 92, 50] ++ [] ++ [13]) ++ 10 :: [126, 33]))).ret = -8 ∧
    (telegram_parser_read_d0 constOracle (openD0Session 64)
        (47 :: (([88, 88, 88, 48, 92, 50] ++ [] ++ [13]) ++ 10 :: [126, 33]))).out =
      List.replicate 65 0 ++ [47, 63, 33, 13, 10] ∧
    (telegram_parser_read_d0 constOracle (openD0Session 64)
        (47 :: (([88, 88, 88, 48, 92, 50] ++ [] ++ [13]) ++ 10 :: [126, 33]))).rest =
      [126, 33] :=
  c8_hdlc_unsupported constOracle (openD0Session 64) 88 88 88 48 [] [126, 33]
    (by decide) (by decide) (by decide) (by decide) (by decide)
